import Mathlib

/-
Verification development for the interest-rate-swap cashflow engine
(fixedIncome/src/assets/rates/linear_rates/interest_rate_swap.py).

The swap class, its accrual-schedule generators, its leg cashflow builders
and its dispatch of the business-day-adjustment function are translated
from the source file.  The external collaborators that the source imports
from modules not included here (Scheduler, DayCountCalculator, the
schedule enumerations, and the base Payment/Cashflow/CashflowCollection
classes) are modelled from the spec, as marked on each definition.
-/

set_option maxRecDepth 4000

/-- Calendar date as an opaque value type with defined ordering and
arithmetic (spec section 9: dates are modelled as a calendar-date value
type, not raw numeric offsets). -/
structure Date where
  year : Int
  month : Nat
  day : Nat
deriving DecidableEq, Repr, BEq

/-- Leap year in the proleptic Gregorian calendar. -/
def Date.isLeapYear (y : Int) : Bool :=
  (Int.emod y 4 == 0 && Int.emod y 100 != 0) || Int.emod y 400 == 0

/-- Number of days in a Gregorian calendar month. -/
def Date.daysInMonth (y : Int) (m : Nat) : Nat :=
  if m = 2 then (if Date.isLeapYear y then 29 else 28)
  else if m = 4 || m = 6 || m = 9 || m = 11 then 30
  else 31

/-- Strict lexicographic order on dates. -/
def Date.lt (a b : Date) : Bool :=
  if a.year < b.year then true
  else if b.year < a.year then false
  else if a.month < b.month then true
  else if b.month < a.month then false
  else decide (a.day < b.day)

/-- Total month index of a date, used for month-stepped arithmetic. -/
def Date.monthsTotal (d : Date) : Int :=
  d.year * 12 + ((d.month : Int) - 1)

/-- Shift a date by a (possibly negative) number of calendar months,
clamping the day of month to the length of the target month.  This models
the month/year arithmetic of dateutil.relativedelta as used by the
schedule generators. -/
def Date.addMonths (d : Date) (k : Int) : Date :=
  let t : Int := Date.monthsTotal d + k
  let m0 : Int := Int.emod t 12
  let y : Int := Int.ediv t 12
  let m : Nat := m0.toNat + 1
  { year := y, month := m, day := min d.day (Date.daysInMonth y m) }

/-- Days since 1970-01-01 in the proleptic Gregorian calendar
(floor-division variant of the standard civil-date algorithm). -/
def Date.toOrdinal (d : Date) : Int :=
  let yAdj : Int := if d.month ≤ 2 then d.year - 1 else d.year
  let era : Int := Int.ediv yAdj 400
  let yoe : Int := yAdj - era * 400
  let mp : Int := if d.month > 2 then (d.month : Int) - 3 else (d.month : Int) + 9
  let doy : Int := Int.ediv (153 * mp + 2) 5 + (d.day : Int) - 1
  let doe : Int := yoe * 365 + Int.ediv yoe 4 - Int.ediv yoe 100 + doy
  era * 146097 + doe - 719468

/-- Inverse of Date.toOrdinal. -/
def Date.ofOrdinal (z0 : Int) : Date :=
  let z : Int := z0 + 719468
  let era : Int := Int.ediv z 146097
  let doe : Int := z - era * 146097
  let yoe : Int :=
    Int.ediv (doe - Int.ediv doe 1460 + Int.ediv doe 36524 - Int.ediv doe 146096) 365
  let y : Int := yoe + era * 400
  let doy : Int := doe - (365 * yoe + Int.ediv yoe 4 - Int.ediv yoe 100)
  let mp : Int := Int.ediv (5 * doy + 2) 153
  let dd : Int := doy - Int.ediv (153 * mp + 2) 5 + 1
  let m : Int := if mp < 10 then mp + 3 else mp - 9
  { year := if m ≤ 2 then y + 1 else y, month := m.toNat, day := dd.toNat }

/-- Shift a date by a (possibly negative) number of calendar days. -/
def Date.addDays (d : Date) (n : Int) : Date :=
  Date.ofOrdinal (Date.toOrdinal d + n)

/-- Day of week encoded so that 1970-01-01 (a Thursday) is 0; Saturday is
2 and Sunday is 3. -/
def Date.weekday (d : Date) : Int :=
  Int.emod (Date.toOrdinal d) 7

/-- Whether a date falls on a weekend. -/
def Date.isWeekend (d : Date) : Bool :=
  Date.weekday d == 2 || Date.weekday d == 3

/-- Modelled from the spec: the holiday calendar collaborator (spec
section 6, a calendar/holiday lookup queried by the date utilities).  The
source passes a dict of Holiday objects whose class is not included here;
only membership of a date in the holiday set is observable through the
date utilities, so the calendar is modelled as the list of holiday
dates. -/
abbrev HolidayCalendar : Type := List Date

/-- A date is a business day when it is neither a weekend day nor a
holiday of the calendar. -/
def is_business_day (cal : HolidayCalendar) (d : Date) : Bool :=
  !(Date.isWeekend d) && !(List.contains cal d)

/-- Modelled from the spec: PaymentFrequency enumeration from the
schedule_enumerations module, which is not included under src.  The spec
names the recognized members ANNUAL, SEMI_ANNUAL and QUARTERLY (section
6) and states that a payment frequency outside that set can be supplied
to period generation (section 7), so one unrecognized member OTHER is
included to model such values. -/
inductive PaymentFrequency where
  | ANNUAL
  | SEMI_ANNUAL
  | QUARTERLY
  | OTHER
deriving DecidableEq, Repr

/-- Modelled from the spec: DayCountConvention enumeration from the
schedule_enumerations module (spec section 6). -/
inductive DayCountConvention where
  | ACTUAL_OVER_360
  | THIRTY_OVER_THREESIXTY
  | ACTUAL_OVER_ACTUAL
deriving DecidableEq, Repr

/-- Modelled from the spec: BusinessDayAdjustment enumeration from the
schedule_enumerations module.  The spec names FOLLOWING and
MODIFIED_FOLLOWING as the recognized members (sections 4.1 and 6) and
states that rule values outside the recognized set reach the dispatch
(sections 4.1 and 7), so one unrecognized member OTHER is included to
model such values. -/
inductive BusinessDayAdjustment where
  | FOLLOWING
  | MODIFIED_FOLLOWING
  | OTHER
deriving DecidableEq, Repr

/-- Modelled from the spec: SettlementConvention enumeration from the
schedule_enumerations module (spec section 6). -/
inductive SettlementConvention where
  | T_PLUS_ZERO_BUSINESS
  | T_PLUS_TWO_BUSINESS
  | T_MINUS_TWO_BUSINESS
deriving DecidableEq, Repr

/-- Modelled from the spec: the CurveIndex enumeration referenced by the
float_index parameter; it is stored but never read by the scheduling
pipeline, so only the member used in the source example plus a generic
other member are modelled. -/
inductive CurveIndex where
  | LIBOR_3M
  | OTHER
deriving DecidableEq, Repr

/-- Direction enumeration, from the source file. -/
inductive InterestRateSwapDirection where
  | PAYER_FIXED
  | RECEIVER_FIXED
deriving DecidableEq, Repr

/-- Error taxonomy of the engine (spec section 7). -/
inductive SwapError where
  | unsupportedConvention
  | unsupportedFrequency
deriving DecidableEq, Repr

/-- SwapAccrual record, from the source file: an accrual period with an
optional accrual factor. -/
structure SwapAccrual where
  start_accrual : Date
  end_accrual : Date
  accrual_factor : Option ℚ := none
deriving DecidableEq, Repr

/-- SwapPayment record, from the source file: the base Payment fields
payment_date and payment (the amount), extended with an optional
fixing_date.  The base Payment class lives in base_cashflow, which is not
included under src; its two fields are modelled from the spec (section 6:
each Payment exposes payment_date, amount and optional fixing_date). -/
structure SwapPayment where
  payment_date : Date
  payment : ℚ
  fixing_date : Option Date := none
deriving DecidableEq, Repr

/-- Modelled from the spec: the Cashflow class of base_cashflow, an
ordered sequence of Payments (spec section 3). -/
structure Cashflow where
  payments : List SwapPayment
deriving DecidableEq, Repr

/-- Modelled from the spec: the business-day adjuster collaborator of the
Scheduler module, FOLLOWING flavour (spec section 4.1: map to the next
business day at or after the input).  The bounded search is fueled; the
fuel generously covers a year of consecutive non-business days plus one
day per calendar entry, after which the input date is returned
unchanged. -/
def Scheduler.next_business_day_on_or_after (cal : HolidayCalendar) : Nat → Date → Date
  | 0, d => d
  | fuel + 1, d =>
    if is_business_day cal d then d
    else Scheduler.next_business_day_on_or_after cal fuel (Date.addDays d 1)

/-- Modelled from the spec: backward search for the latest business day
at or before the input, used by the MODIFIED_FOLLOWING rule when the
forward adjustment crosses a month boundary. -/
def Scheduler.prev_business_day_on_or_before (cal : HolidayCalendar) : Nat → Date → Date
  | 0, d => d
  | fuel + 1, d =>
    if is_business_day cal d then d
    else Scheduler.prev_business_day_on_or_before cal fuel (Date.addDays d (-1))

/-- Modelled from the spec: Scheduler.following_date_adjustment (spec
section 4.1, rule FOLLOWING). -/
def Scheduler.following_date_adjustment (d : Date) (cal : HolidayCalendar) : Date :=
  Scheduler.next_business_day_on_or_after cal (366 + cal.length) d

/-- Modelled from the spec: Scheduler.modified_following_date_adjustment
(spec section 4.1, rule MODIFIED_FOLLOWING: next business day at or after
the input, unless that date falls in the next calendar month, in which
case the previous business day). -/
def Scheduler.modified_following_date_adjustment (d : Date) (cal : HolidayCalendar) : Date :=
  let f := Scheduler.following_date_adjustment d cal
  if f.month ≠ d.month || f.year ≠ d.year then
    Scheduler.prev_business_day_on_or_before cal (366 + cal.length) d
  else f

/-- Step forward or backward by one business day at a time, fueled as
above. -/
def Scheduler.step_business_days (cal : HolidayCalendar) (forward : Bool) :
    Nat → Nat → Date → Date
  | 0, _, d => d
  | _, 0, d => d
  | fuel + 1, n + 1, d =>
    let d' := Date.addDays d (if forward then 1 else -1)
    if is_business_day cal d' then
      Scheduler.step_business_days cal forward fuel n d'
    else
      Scheduler.step_business_days cal forward fuel (n + 1) d'

/-- Modelled from the spec: Scheduler.calculate_settlement_date, the
settlement-offset collaborator taking (date, convention, calendar) to a
date (spec section 6; glossary: an offset rule such as two business days
after, used to derive fixing or payment dates from an accrual
boundary). -/
def Scheduler.calculate_settlement_date (d : Date) (conv : SettlementConvention)
    (cal : HolidayCalendar) : Date :=
  match conv with
  | .T_PLUS_ZERO_BUSINESS => d
  | .T_PLUS_TWO_BUSINESS => Scheduler.step_business_days cal true (366 + cal.length) 2 d
  | .T_MINUS_TWO_BUSINESS => Scheduler.step_business_days cal false (366 + cal.length) 2 d

/-- Modelled from the spec: the backward-stepping boundary generator
Scheduler.generate_dates_by_increments (spec section 4.2 step 2: generate
unadjusted period boundary dates by stepping backward from the end of the
accrual window toward its start in units of the step, inclusive of both
ends, so that any stub period falls at the start of the schedule).  The
fueled recursion starts at start_date and subtracts the increment, which
is a negative number of months, until reaching or passing end_date; the
fuel bounds the number of month-steps between the two dates and is never
exhausted for increments of whole months. -/
def Scheduler.generate_dates_by_increments_go (increment : Int) (end_date : Date) :
    Nat → Date → List Date
  | 0, _ => [end_date]
  | fuel + 1, current =>
    if Date.lt end_date current then
      current :: Scheduler.generate_dates_by_increments_go increment end_date fuel
        (Date.addMonths current increment)
    else [end_date]

/-- Modelled from the spec: wrapper computing the fuel for the
backward-stepping generator. -/
def Scheduler.generate_dates_by_increments (start_date end_date : Date)
    (increment : Int) : List Date :=
  let fuel :=
    (Date.monthsTotal start_date - Date.monthsTotal end_date).toNat / max increment.natAbs 1 + 2
  Scheduler.generate_dates_by_increments_go increment end_date fuel start_date

/-- Modelled from the spec: the day-count-fraction collaborator
DayCountCalculator.compute_accrual_length, a pure function mapping a date
pair and a convention to an accrual fraction (spec sections 2 and 6).
The spec gives only the convention names; the standard formulas are
used: actual days over 360, the 30/360 US month formula, and actual days
over 365 for the actual/actual member. -/
def DayCountCalculator.compute_accrual_length (s e : Date)
    (dcc : DayCountConvention) : ℚ :=
  match dcc with
  | .ACTUAL_OVER_360 => ((Date.toOrdinal e - Date.toOrdinal s : Int) : ℚ) / 360
  | .THIRTY_OVER_THREESIXTY =>
    let d1 : Int := min (s.day : Int) 30
    let d2 : Int := if (e.day : Int) = 31 && d1 = 30 then 30 else (e.day : Int)
    ((360 * (e.year - s.year) + 30 * ((e.month : Int) - (s.month : Int)) + (d2 - d1) : Int) : ℚ) / 360
  | .ACTUAL_OVER_ACTUAL => ((Date.toOrdinal e - Date.toOrdinal s : Int) : ℚ) / 365

/-- TermInterestRateSwap state, from the source file: the full immutable
parameter set stored by the constructor, the date-adjustment function the
constructor resolves once, and the cashflow storage of the base
CashflowCollection, which the constructor initializes to a pair of empty
entries keyed FIXED_LEG then FLOATING_LEG. -/
structure TermInterestRateSwap where
  float_index : CurveIndex
  direction : InterestRateSwapDirection
  fixed_rate : ℚ
  notional : Int
  start_accrual_date : Date
  end_accrual_date : Date
  purchase_date : Date
  floating_leg_payment_frequency : PaymentFrequency
  fixed_leg_payment_frequency : PaymentFrequency
  floating_leg_day_count_convention : DayCountConvention
  fixed_leg_day_count_convention : DayCountConvention
  holiday_calendar : HolidayCalendar
  fixing_date_for_accrual_period : SettlementConvention
  payment_delay : SettlementConvention
  business_day_adjustment : BusinessDayAdjustment
  date_adjustment_function : Date → Date
  cashflows : Option Cashflow × Option Cashflow

/-- The constructor parameters of TermInterestRateSwap, mirroring the
signature of the source constructor. -/
structure SwapParameters where
  float_index : CurveIndex
  direction : InterestRateSwapDirection
  fixed_rate : ℚ
  notional : Int
  start_accrual_date : Date
  end_accrual_date : Date
  purchase_date : Date
  floating_leg_payment_frequency : PaymentFrequency
  fixed_leg_payment_frequency : PaymentFrequency
  floating_leg_day_count_convention : DayCountConvention
  fixed_leg_day_count_convention : DayCountConvention
  holiday_calendar : HolidayCalendar
  fixing_date_for_accrual_period : SettlementConvention
  payment_delay : SettlementConvention
  business_day_adjustment : BusinessDayAdjustment

/-- Dispatch of the date-adjustment function, from the source method
create_date_adjustment_function: FOLLOWING and MODIFIED_FOLLOWING map to
the corresponding Scheduler adjustment closed over the instrument
calendar, and any other rule value raises, modelled as the
unsupportedConvention error. -/
def create_date_adjustment_function (cal : HolidayCalendar) :
    BusinessDayAdjustment → Except SwapError (Date → Date)
  | .FOLLOWING =>
    .ok (fun date_obj => Scheduler.following_date_adjustment date_obj cal)
  | .MODIFIED_FOLLOWING =>
    .ok (fun date_obj => Scheduler.modified_following_date_adjustment date_obj cal)
  | _ => .error .unsupportedConvention

/-- The constructor of TermInterestRateSwap, from the source: it stores
every parameter, resolves the date-adjustment function once via
create_date_adjustment_function (a raise there propagates, modelled as
the error result), and initializes the cashflow storage of the base
class with empty entries. -/
def mkTermInterestRateSwap (p : SwapParameters) : Except SwapError TermInterestRateSwap :=
  (create_date_adjustment_function p.holiday_calendar p.business_day_adjustment).map
    (fun f =>
      { float_index := p.float_index
        direction := p.direction
        fixed_rate := p.fixed_rate
        notional := p.notional
        start_accrual_date := p.start_accrual_date
        end_accrual_date := p.end_accrual_date
        purchase_date := p.purchase_date
        floating_leg_payment_frequency := p.floating_leg_payment_frequency
        fixed_leg_payment_frequency := p.fixed_leg_payment_frequency
        floating_leg_day_count_convention := p.floating_leg_day_count_convention
        fixed_leg_day_count_convention := p.fixed_leg_day_count_convention
        holiday_calendar := p.holiday_calendar
        fixing_date_for_accrual_period := p.fixing_date_for_accrual_period
        payment_delay := p.payment_delay
        business_day_adjustment := p.business_day_adjustment
        date_adjustment_function := f
        cashflows := (none, none) })

/-- Keys of the two cashflow slots, from base_cashflow via the source
constructor: the tuple order is FIXED_LEG then FLOATING_LEG. -/
inductive CashflowKeys where
  | FIXED_LEG
  | FLOATING_LEG
deriving DecidableEq, Repr

/-- Modelled from the spec: the keyed lookup of the base
CashflowCollection class (base_cashflow is not included under src).  The
source accessors index the collection by key; the collection stores the
cashflows tuple against the keys tuple passed at construction, so the
lookup returns the stored entry for the key. -/
def TermInterestRateSwap.getitem (s : TermInterestRateSwap) :
    CashflowKeys → Option Cashflow
  | .FIXED_LEG => s.cashflows.1
  | .FLOATING_LEG => s.cashflows.2

/-- The fixed_leg accessor, from the source: it indexes the collection by
the FIXED_LEG key. -/
def TermInterestRateSwap.fixed_leg (s : TermInterestRateSwap) : Option Cashflow :=
  s.getitem .FIXED_LEG

/-- The floating_leg accessor, from the source: it indexes the collection
by the FLOATING_LEG key. -/
def TermInterestRateSwap.floating_leg (s : TermInterestRateSwap) : Option Cashflow :=
  s.getitem .FLOATING_LEG

/-- The accrual-period construction shared by both schedule generators,
from the source: iterate over consecutive pairs of the adjusted boundary
dates and build a SwapAccrual for each pair with the accrual factor
computed by the day-count collaborator. -/
def accrualsFromDates (dcc : DayCountConvention) : List Date → List SwapAccrual
  | a :: b :: rest =>
    { start_accrual := a
      end_accrual := b
      accrual_factor := some (DayCountCalculator.compute_accrual_length a b dcc) }
      :: accrualsFromDates dcc (b :: rest)
  | _ => []

/-- The floating-leg schedule generator, from the source method
generate_floating_leg_accrual_schedule: dispatch the payment frequency to
a negative month increment (raising for an unrecognized frequency),
generate the unadjusted boundaries backward from the end date, reverse
them, adjust every boundary with the stored date-adjustment function,
and form the accrual periods. -/
def generate_floating_leg_accrual_schedule (s : TermInterestRateSwap) :
    Except SwapError (List SwapAccrual) :=
  (match s.floating_leg_payment_frequency with
    | .ANNUAL => Except.ok (-12 : Int)
    | .SEMI_ANNUAL => Except.ok (-6 : Int)
    | .QUARTERLY => Except.ok (-3 : Int)
    | _ => Except.error SwapError.unsupportedFrequency).bind
    (fun increment =>
      let unadjusted_accrual_dates :=
        Scheduler.generate_dates_by_increments s.end_accrual_date s.start_accrual_date increment
      let chronological := unadjusted_accrual_dates.reverse
      let adjusted_accrual_dates := chronological.map s.date_adjustment_function
      Except.ok (accrualsFromDates s.floating_leg_day_count_convention adjusted_accrual_dates))

/-- The fixed-leg schedule generator, from the source method
generate_fixed_leg_accrual_schedule, identical to the floating one except
that it reads the fixed-leg frequency and day-count convention. -/
def generate_fixed_leg_accrual_schedule (s : TermInterestRateSwap) :
    Except SwapError (List SwapAccrual) :=
  (match s.fixed_leg_payment_frequency with
    | .ANNUAL => Except.ok (-12 : Int)
    | .SEMI_ANNUAL => Except.ok (-6 : Int)
    | .QUARTERLY => Except.ok (-3 : Int)
    | _ => Except.error SwapError.unsupportedFrequency).bind
    (fun increment =>
      let unadjusted_accrual_dates :=
        Scheduler.generate_dates_by_increments s.end_accrual_date s.start_accrual_date increment
      let chronological := unadjusted_accrual_dates.reverse
      let adjusted_accrual_dates := chronological.map s.date_adjustment_function
      Except.ok (accrualsFromDates s.fixed_leg_day_count_convention adjusted_accrual_dates))

/-- The floating-leg cashflow builder, from the source method
create_floating_leg_cashflow: for each accrual period, the fixing date is
the settlement offset of the accrual start under the fixing convention,
the rate is the injected rate-fixing function at that fixing date, the
payment date is the settlement offset of the accrual end under the
payment delay, and the amount is accrual_factor * notional * rate. -/
def create_floating_leg_cashflow (s : TermInterestRateSwap)
    (interest_rate : Date → ℚ) : Except SwapError Cashflow :=
  (generate_floating_leg_accrual_schedule s).map
    (fun floating_leg_accruals =>
      Cashflow.mk (floating_leg_accruals.map (fun accrual =>
        let fixing_date :=
          Scheduler.calculate_settlement_date accrual.start_accrual
            s.fixing_date_for_accrual_period s.holiday_calendar
        let interest_rate_fixing := interest_rate fixing_date
        let payment_date :=
          Scheduler.calculate_settlement_date accrual.end_accrual
            s.payment_delay s.holiday_calendar
        let payment_amount :=
          accrual.accrual_factor.getD 0 * (s.notional : ℚ) * interest_rate_fixing
        { payment_date := payment_date
          payment := payment_amount
          fixing_date := some fixing_date })))

/-- The fixed-leg cashflow builder, from the source method
create_fixed_leg_cashflow: for each accrual period, the amount is
accrual_factor * notional * fixed_rate, the payment date is the
settlement offset of the accrual end under the payment delay, and no
fixing date is set. -/
def create_fixed_leg_cashflow (s : TermInterestRateSwap) :
    Except SwapError Cashflow :=
  (generate_fixed_leg_accrual_schedule s).map
    (fun fixed_leg_accruals =>
      Cashflow.mk (fixed_leg_accruals.map (fun accrual =>
        let payment_amount :=
          accrual.accrual_factor.getD 0 * (s.notional : ℚ) * s.fixed_rate
        let payment_date :=
          Scheduler.calculate_settlement_date accrual.end_accrual
            s.payment_delay s.holiday_calendar
        { payment_date := payment_date
          payment := payment_amount
          fixing_date := none })))

/-- The floating-leg payment loop with the injected rate-fixing function
allowed to fail, translating the same source loop with the implicit
exception channel of the host language made explicit: an error of the
rate-fixing function at a requested fixing date aborts the loop with that
error, untouched. -/
def build_floating_payments_fallible {E : Type} (s : TermInterestRateSwap)
    (interest_rate : Date → Except E ℚ) :
    List SwapAccrual → Except (SwapError ⊕ E) (List SwapPayment)
  | [] => .ok []
  | accrual :: rest =>
    let fixing_date :=
      Scheduler.calculate_settlement_date accrual.start_accrual
        s.fixing_date_for_accrual_period s.holiday_calendar
    match interest_rate fixing_date with
    | .error e => .error (Sum.inr e)
    | .ok interest_rate_fixing =>
      let payment_date :=
        Scheduler.calculate_settlement_date accrual.end_accrual
          s.payment_delay s.holiday_calendar
      let payment_amount :=
        accrual.accrual_factor.getD 0 * (s.notional : ℚ) * interest_rate_fixing
      (build_floating_payments_fallible s interest_rate rest).map
        (fun tail =>
          { payment_date := payment_date
            payment := payment_amount
            fixing_date := some fixing_date } :: tail)

/-- The floating-leg cashflow builder over a fallible rate-fixing
function, translating create_floating_leg_cashflow with the exception
channel explicit: schedule-generation errors surface on the left and
rate-fixing errors on the right of the sum, each payload untouched. -/
def create_floating_leg_cashflow_fallible {E : Type} (s : TermInterestRateSwap)
    (interest_rate : Date → Except E ℚ) : Except (SwapError ⊕ E) Cashflow :=
  match generate_floating_leg_accrual_schedule s with
  | .error se => .error (Sum.inl se)
  | .ok floating_leg_accruals =>
    (build_floating_payments_fallible s interest_rate floating_leg_accruals).map Cashflow.mk

/-- The step mapping of spec section 4.2 step 1: ANNUAL is one year,
SEMI_ANNUAL six months and QUARTERLY three months, backward; an
unrecognized frequency has no step.  This definition follows the spec
wording and is compared against the generators in the theorems. -/
def frequency_months : PaymentFrequency → Option Int
  | .ANNUAL => some (-12)
  | .SEMI_ANNUAL => some (-6)
  | .QUARTERLY => some (-3)
  | .OTHER => none

/-- Index characterization of the accrual-period construction: entry i
pairs boundary i with boundary i+1 and carries its day-count factor. -/
lemma accrualsFromDates_getElem (dcc : DayCountConvention) :
    ∀ (l : List Date) (i : Nat),
    (accrualsFromDates dcc l)[i]? =
      match l[i]?, l[i + 1]? with
      | some a, some b =>
        some { start_accrual := a, end_accrual := b,
               accrual_factor := some (DayCountCalculator.compute_accrual_length a b dcc) }
      | _, _ => none := by
  intro l
  induction l with
  | nil => intro i; simp [accrualsFromDates]
  | cons a tail ih =>
    intro i
    cases tail with
    | nil =>
      cases i with
      | zero => simp [accrualsFromDates]
      | succ n => simp [accrualsFromDates]
    | cons b rest =>
      cases i with
      | zero => simp [accrualsFromDates]
      | succ n =>
        simp only [accrualsFromDates, List.getElem?_cons_succ]
        simpa only [List.getElem?_cons_succ] using ih n

/-- The accrual-period construction yields one period per consecutive
boundary pair. -/
lemma accrualsFromDates_length (dcc : DayCountConvention) :
    ∀ l : List Date, (accrualsFromDates dcc l).length = l.length - 1 := by
  intro l
  induction l with
  | nil => simp [accrualsFromDates]
  | cons a tail ih =>
    cases tail with
    | nil => simp [accrualsFromDates]
    | cons b rest =>
      simp only [accrualsFromDates, List.length_cons] at ih ⊢
      omega

/-- The backward boundary generator never returns an empty list. -/
lemma gdbi_go_ne_nil (inc : Int) (e : Date) :
    ∀ (fuel : Nat) (cur : Date),
    Scheduler.generate_dates_by_increments_go inc e fuel cur ≠ [] := by
  intro fuel cur
  cases fuel with
  | zero => simp [Scheduler.generate_dates_by_increments_go]
  | succ n =>
    unfold Scheduler.generate_dates_by_increments_go
    split <;> simp

/-- The backward boundary generator always ends with the window start
(the end_date parameter of the backward stepping). -/
lemma gdbi_go_concat (inc : Int) (e : Date) :
    ∀ (fuel : Nat) (cur : Date),
    ∃ mid, Scheduler.generate_dates_by_increments_go inc e fuel cur = mid ++ [e] := by
  intro fuel
  induction fuel with
  | zero => intro cur; exact ⟨[], rfl⟩
  | succ n ih =>
    intro cur
    unfold Scheduler.generate_dates_by_increments_go
    by_cases hlt : Date.lt e cur = true
    · obtain ⟨mid, h⟩ := ih (Date.addMonths cur inc)
      exact ⟨cur :: mid, by rw [if_pos hlt, h]; rfl⟩
    · exact ⟨[], by rw [if_neg hlt]; rfl⟩

/-- When the backward boundary generator returns at least two dates, its
first date is the stepping start (the window end). -/
lemma gdbi_go_getElem_zero (inc : Int) (e : Date) (fuel : Nat) (cur : Date)
    (h : 2 ≤ (Scheduler.generate_dates_by_increments_go inc e fuel cur).length) :
    (Scheduler.generate_dates_by_increments_go inc e fuel cur)[0]? = some cur := by
  cases fuel with
  | zero => simp [Scheduler.generate_dates_by_increments_go] at h
  | succ n =>
    unfold Scheduler.generate_dates_by_increments_go at h ⊢
    by_cases hlt : Date.lt e cur = true
    · rw [if_pos hlt]; exact List.getElem?_cons_zero
    · rw [if_neg hlt] at h; simp at h

/-- The boundary list is never empty. -/
lemma gdbi_length_pos (sd ed : Date) (m : Int) :
    0 < (Scheduler.generate_dates_by_increments sd ed m).length :=
  List.length_pos.mpr (gdbi_go_ne_nil m ed _ sd)

/-- Reversed to chronological order, the boundary list starts with the
window start date. -/
lemma gdbi_reverse_cons (sd ed : Date) (m : Int) :
    ∃ mid, (Scheduler.generate_dates_by_increments sd ed m).reverse = ed :: mid := by
  obtain ⟨mid, h⟩ := gdbi_go_concat m ed
    ((Date.monthsTotal sd - Date.monthsTotal ed).toNat / max m.natAbs 1 + 2) sd
  exact ⟨mid.reverse, by
    unfold Scheduler.generate_dates_by_increments
    rw [h]; simp⟩

/-- When the boundary list has at least two dates, its first date is the
window end date. -/
lemma gdbi_getElem_zero (sd ed : Date) (m : Int)
    (h : 2 ≤ (Scheduler.generate_dates_by_increments sd ed m).length) :
    (Scheduler.generate_dates_by_increments sd ed m)[0]? = some sd := by
  unfold Scheduler.generate_dates_by_increments at h ⊢
  exact gdbi_go_getElem_zero m ed _ sd h

/-- Shape of a successful floating-leg schedule: the frequency resolved
to its month step, and the schedule is the accrual-period construction
over the adjusted, chronological boundary list. -/
lemma generate_floating_ok_shape (s : TermInterestRateSwap) (sched : List SwapAccrual)
    (h : generate_floating_leg_accrual_schedule s = .ok sched) :
    ∃ m : Int, frequency_months s.floating_leg_payment_frequency = some m ∧
      sched = accrualsFromDates s.floating_leg_day_count_convention
        (((Scheduler.generate_dates_by_increments s.end_accrual_date s.start_accrual_date m).reverse).map
          s.date_adjustment_function) := by
  cases hf : s.floating_leg_payment_frequency <;>
    simp only [generate_floating_leg_accrual_schedule, hf, Except.bind] at h
  case ANNUAL => exact ⟨-12, rfl, by simpa using h.symm⟩
  case SEMI_ANNUAL => exact ⟨-6, rfl, by simpa using h.symm⟩
  case QUARTERLY => exact ⟨-3, rfl, by simpa using h.symm⟩
  case OTHER => simp at h

/-- Shape of a successful fixed-leg schedule, as for the floating leg. -/
lemma generate_fixed_ok_shape (s : TermInterestRateSwap) (sched : List SwapAccrual)
    (h : generate_fixed_leg_accrual_schedule s = .ok sched) :
    ∃ m : Int, frequency_months s.fixed_leg_payment_frequency = some m ∧
      sched = accrualsFromDates s.fixed_leg_day_count_convention
        (((Scheduler.generate_dates_by_increments s.end_accrual_date s.start_accrual_date m).reverse).map
          s.date_adjustment_function) := by
  cases hf : s.fixed_leg_payment_frequency <;>
    simp only [generate_fixed_leg_accrual_schedule, hf, Except.bind] at h
  case ANNUAL => exact ⟨-12, rfl, by simpa using h.symm⟩
  case SEMI_ANNUAL => exact ⟨-6, rfl, by simpa using h.symm⟩
  case QUARTERLY => exact ⟨-3, rfl, by simpa using h.symm⟩
  case OTHER => simp at h

/-- A recognized floating-leg frequency makes the generator succeed with
the pipeline applied at the corresponding month step. -/
lemma generate_floating_eq_of_freq (s : TermInterestRateSwap) (m : Int)
    (hm : frequency_months s.floating_leg_payment_frequency = some m) :
    generate_floating_leg_accrual_schedule s =
      .ok (accrualsFromDates s.floating_leg_day_count_convention
        (((Scheduler.generate_dates_by_increments s.end_accrual_date s.start_accrual_date m).reverse).map
          s.date_adjustment_function)) := by
  cases hf : s.floating_leg_payment_frequency
  case ANNUAL =>
    rw [hf] at hm
    simp only [frequency_months, Option.some.injEq] at hm
    subst hm
    simp only [generate_floating_leg_accrual_schedule, hf, Except.bind]
  case SEMI_ANNUAL =>
    rw [hf] at hm
    simp only [frequency_months, Option.some.injEq] at hm
    subst hm
    simp only [generate_floating_leg_accrual_schedule, hf, Except.bind]
  case QUARTERLY =>
    rw [hf] at hm
    simp only [frequency_months, Option.some.injEq] at hm
    subst hm
    simp only [generate_floating_leg_accrual_schedule, hf, Except.bind]
  case OTHER =>
    rw [hf] at hm
    simp only [frequency_months, reduceCtorEq] at hm

/-- A recognized fixed-leg frequency makes the generator succeed with the
pipeline applied at the corresponding month step. -/
lemma generate_fixed_eq_of_freq (s : TermInterestRateSwap) (m : Int)
    (hm : frequency_months s.fixed_leg_payment_frequency = some m) :
    generate_fixed_leg_accrual_schedule s =
      .ok (accrualsFromDates s.fixed_leg_day_count_convention
        (((Scheduler.generate_dates_by_increments s.end_accrual_date s.start_accrual_date m).reverse).map
          s.date_adjustment_function)) := by
  cases hf : s.fixed_leg_payment_frequency
  case ANNUAL =>
    rw [hf] at hm
    simp only [frequency_months, Option.some.injEq] at hm
    subst hm
    simp only [generate_fixed_leg_accrual_schedule, hf, Except.bind]
  case SEMI_ANNUAL =>
    rw [hf] at hm
    simp only [frequency_months, Option.some.injEq] at hm
    subst hm
    simp only [generate_fixed_leg_accrual_schedule, hf, Except.bind]
  case QUARTERLY =>
    rw [hf] at hm
    simp only [frequency_months, Option.some.injEq] at hm
    subst hm
    simp only [generate_fixed_leg_accrual_schedule, hf, Except.bind]
  case OTHER =>
    rw [hf] at hm
    simp only [frequency_months, reduceCtorEq] at hm

/-- A small concrete instrument used to witness the theorems: a one-year
swap with both legs ANNUAL over actual/360, an empty holiday calendar,
zero-business-day settlement conventions and the FOLLOWING adjustment. -/
def exampleParams : SwapParameters where
  float_index := .LIBOR_3M
  direction := .RECEIVER_FIXED
  fixed_rate := 11 / 200
  notional := 1000000
  start_accrual_date := ⟨2024, 1, 1⟩
  end_accrual_date := ⟨2025, 1, 1⟩
  purchase_date := ⟨2024, 1, 1⟩
  floating_leg_payment_frequency := .ANNUAL
  fixed_leg_payment_frequency := .ANNUAL
  floating_leg_day_count_convention := .ACTUAL_OVER_360
  fixed_leg_day_count_convention := .ACTUAL_OVER_360
  holiday_calendar := []
  fixing_date_for_accrual_period := .T_PLUS_ZERO_BUSINESS
  payment_delay := .T_PLUS_ZERO_BUSINESS
  business_day_adjustment := .FOLLOWING

/-- The instrument the constructor builds from exampleParams. -/
def exampleSwap : TermInterestRateSwap where
  float_index := .LIBOR_3M
  direction := .RECEIVER_FIXED
  fixed_rate := 11 / 200
  notional := 1000000
  start_accrual_date := ⟨2024, 1, 1⟩
  end_accrual_date := ⟨2025, 1, 1⟩
  purchase_date := ⟨2024, 1, 1⟩
  floating_leg_payment_frequency := .ANNUAL
  fixed_leg_payment_frequency := .ANNUAL
  floating_leg_day_count_convention := .ACTUAL_OVER_360
  fixed_leg_day_count_convention := .ACTUAL_OVER_360
  holiday_calendar := []
  fixing_date_for_accrual_period := .T_PLUS_ZERO_BUSINESS
  payment_delay := .T_PLUS_ZERO_BUSINESS
  business_day_adjustment := .FOLLOWING
  date_adjustment_function := fun date_obj =>
    Scheduler.following_date_adjustment date_obj exampleParams.holiday_calendar
  cashflows := (none, none)

/-- A concrete deterministic rate-fixing function. -/
def exampleRate : Date → ℚ := fun _ => 1 / 20

/-- A concrete fallible rate-fixing function that fails on every date,
with a recognizable payload. -/
def exampleFailingRate : Date → Except Nat ℚ := fun _ => Except.error 7

/-- The floating-leg accrual schedule of the example instrument. -/
def schedExample : List SwapAccrual :=
  (generate_floating_leg_accrual_schedule exampleSwap).toOption.getD []

/-- The fixed-leg accrual schedule of the example instrument. -/
def schedFixedExample : List SwapAccrual :=
  (generate_fixed_leg_accrual_schedule exampleSwap).toOption.getD []

/-- The first floating-leg accrual period of the example instrument. -/
def accrualExample : SwapAccrual :=
  (schedExample[0]?).getD { start_accrual := ⟨2024, 1, 1⟩, end_accrual := ⟨2024, 1, 1⟩ }

/-- The first fixed-leg accrual period of the example instrument. -/
def accrualFixedExample : SwapAccrual :=
  (schedFixedExample[0]?).getD { start_accrual := ⟨2024, 1, 1⟩, end_accrual := ⟨2024, 1, 1⟩ }

/-- The accrual factor of the first floating-leg period. -/
def factorExample : ℚ := accrualExample.accrual_factor.getD 0

/-- The accrual factor of the first fixed-leg period. -/
def factorFixedExample : ℚ := accrualFixedExample.accrual_factor.getD 0

/-- The floating-leg cashflow of the example instrument. -/
def cfFloatExample : Cashflow :=
  (create_floating_leg_cashflow exampleSwap exampleRate).toOption.getD ⟨[]⟩

/-- The fixed-leg cashflow of the example instrument. -/
def cfFixedExample : Cashflow :=
  (create_fixed_leg_cashflow exampleSwap).toOption.getD ⟨[]⟩

/-- The example instrument with both payment frequencies replaced by an
unrecognized value. -/
def badFreqSwap : TermInterestRateSwap :=
  { exampleSwap with
    floating_leg_payment_frequency := .OTHER
    fixed_leg_payment_frequency := .OTHER }

/-- The example instrument with every field the leg builders never read
replaced by a different value. -/
def exampleSwapVariant : TermInterestRateSwap :=
  { exampleSwap with
    float_index := .OTHER
    direction := .PAYER_FIXED
    purchase_date := ⟨2023, 6, 15⟩
    business_day_adjustment := .OTHER }

/-- The ten-year instrument of the source example scenario: accrual
window 2024-01-01 to 2034-01-01, floating leg SEMI_ANNUAL over
actual/360, fixed leg QUARTERLY over 30/360, notional 1000000, fixed
rate 0.055, MODIFIED_FOLLOWING adjustment. -/
def tenYearExampleSwap : TermInterestRateSwap where
  float_index := .LIBOR_3M
  direction := .RECEIVER_FIXED
  fixed_rate := 11 / 200
  notional := 1000000
  start_accrual_date := ⟨2024, 1, 1⟩
  end_accrual_date := ⟨2034, 1, 1⟩
  purchase_date := ⟨2024, 1, 1⟩
  floating_leg_payment_frequency := .SEMI_ANNUAL
  fixed_leg_payment_frequency := .QUARTERLY
  floating_leg_day_count_convention := .ACTUAL_OVER_360
  fixed_leg_day_count_convention := .THIRTY_OVER_THREESIXTY
  holiday_calendar := []
  fixing_date_for_accrual_period := .T_MINUS_TWO_BUSINESS
  payment_delay := .T_PLUS_ZERO_BUSINESS
  business_day_adjustment := .MODIFIED_FOLLOWING
  date_adjustment_function := fun date_obj =>
    Scheduler.modified_following_date_adjustment date_obj []
  cashflows := (none, none)

/-- C1, counterexample: for a concrete instrument constructed with valid
parameters, the fixed_leg and floating_leg accessors return the stored
empty entries, while running the two leg cashflow builders returns actual
Cashflow values, so the accessors do not return the computed results. -/
theorem fixed_leg_accessor_counterexample :
    mkTermInterestRateSwap exampleParams = .ok exampleSwap
    ∧ exampleSwap.fixed_leg = none
    ∧ exampleSwap.floating_leg = none
    ∧ (create_fixed_leg_cashflow exampleSwap).toOption.isNone = false
    ∧ (create_floating_leg_cashflow exampleSwap exampleRate).toOption.isNone = false :=
  ⟨rfl, rfl, rfl, rfl, rfl⟩

/-- C1 (amended): for every TermInterestRateSwap constructed with valid
parameters, the fixed_leg and floating_leg accessors return the stored
cashflow entries, which the constructor initializes to the empty value
and which nothing populates; the computed Cashflow results are obtained
only by calling create_fixed_leg_cashflow and
create_floating_leg_cashflow directly. -/
theorem fixed_leg_accessor_returns_stored_none (p : SwapParameters)
    (s : TermInterestRateSwap) (h : mkTermInterestRateSwap p = .ok s) :
    s.fixed_leg = none ∧ s.floating_leg = none := by
  unfold mkTermInterestRateSwap at h
  cases hc : create_date_adjustment_function p.holiday_calendar p.business_day_adjustment with
  | error e => rw [hc] at h; exact absurd h (by simp [Except.map])
  | ok f =>
    rw [hc] at h
    simp only [Except.map, Except.ok.injEq] at h
    subst h
    exact ⟨rfl, rfl⟩

/-- Witness for C1 (amended) at the concrete example instrument. -/
theorem fixed_leg_accessor_returns_stored_none_witness :
    exampleSwap.fixed_leg = none ∧ exampleSwap.floating_leg = none :=
  fixed_leg_accessor_returns_stored_none exampleParams exampleSwap rfl

/-- C6: resolving the date-adjustment function for any rule value other
than FOLLOWING and MODIFIED_FOLLOWING fails with the unsupported
convention error at the point of dispatch, and construction with such a
rule fails the same way; for every successfully constructed instrument
the resolved function is stored at construction (the stored field is
exactly the dispatch result), and both schedule generators read only the
stored function, never re-resolving from the rule field. -/
theorem date_adjustment_dispatch (cal : HolidayCalendar)
    (rule : BusinessDayAdjustment) (p : SwapParameters)
    (h1 : rule ≠ .FOLLOWING) (h2 : rule ≠ .MODIFIED_FOLLOWING) :
    create_date_adjustment_function cal rule = .error .unsupportedConvention
    ∧ mkTermInterestRateSwap { p with business_day_adjustment := rule } =
        .error .unsupportedConvention
    ∧ (∀ s : TermInterestRateSwap, mkTermInterestRateSwap p = .ok s →
        create_date_adjustment_function p.holiday_calendar p.business_day_adjustment =
          .ok s.date_adjustment_function)
    ∧ (∀ (s : TermInterestRateSwap) (other_rule : BusinessDayAdjustment),
        generate_fixed_leg_accrual_schedule { s with business_day_adjustment := other_rule } =
          generate_fixed_leg_accrual_schedule s
        ∧ generate_floating_leg_accrual_schedule { s with business_day_adjustment := other_rule } =
          generate_floating_leg_accrual_schedule s) := by
  refine ⟨?_, ?_, ?_, ?_⟩
  · cases rule with
    | FOLLOWING => exact absurd rfl h1
    | MODIFIED_FOLLOWING => exact absurd rfl h2
    | OTHER => rfl
  · cases rule with
    | FOLLOWING => exact absurd rfl h1
    | MODIFIED_FOLLOWING => exact absurd rfl h2
    | OTHER => rfl
  · intro s hs
    unfold mkTermInterestRateSwap at hs
    cases hc : create_date_adjustment_function p.holiday_calendar p.business_day_adjustment with
    | error e => rw [hc] at hs; exact absurd hs (by simp [Except.map])
    | ok f =>
      rw [hc] at hs
      simp only [Except.map, Except.ok.injEq] at hs
      subst hs
      rfl
  · intro s other_rule
    exact ⟨rfl, rfl⟩

/-- Witness for C6 at the unrecognized rule value. -/
theorem date_adjustment_dispatch_witness :
    create_date_adjustment_function [] .OTHER = .error .unsupportedConvention :=
  (date_adjustment_dispatch [] .OTHER exampleParams (by decide) (by decide)).1

/-- C7: a payment frequency outside ANNUAL, SEMI_ANNUAL and QUARTERLY
makes the corresponding accrual-schedule generator fail with the
unsupported frequency error, and the recognized frequencies map to
backward steps of one year, six months and three months respectively,
the generator producing the boundary pipeline at exactly that step. -/
theorem frequency_dispatch (s : TermInterestRateSwap) :
    (s.floating_leg_payment_frequency ≠ .ANNUAL →
      s.floating_leg_payment_frequency ≠ .SEMI_ANNUAL →
      s.floating_leg_payment_frequency ≠ .QUARTERLY →
      generate_floating_leg_accrual_schedule s = .error .unsupportedFrequency)
    ∧ (s.fixed_leg_payment_frequency ≠ .ANNUAL →
      s.fixed_leg_payment_frequency ≠ .SEMI_ANNUAL →
      s.fixed_leg_payment_frequency ≠ .QUARTERLY →
      generate_fixed_leg_accrual_schedule s = .error .unsupportedFrequency)
    ∧ frequency_months .ANNUAL = some (-12)
    ∧ frequency_months .SEMI_ANNUAL = some (-6)
    ∧ frequency_months .QUARTERLY = some (-3)
    ∧ (∀ m : Int, frequency_months s.floating_leg_payment_frequency = some m →
        generate_floating_leg_accrual_schedule s =
          .ok (accrualsFromDates s.floating_leg_day_count_convention
            (((Scheduler.generate_dates_by_increments s.end_accrual_date
                s.start_accrual_date m).reverse).map s.date_adjustment_function)))
    ∧ (∀ m : Int, frequency_months s.fixed_leg_payment_frequency = some m →
        generate_fixed_leg_accrual_schedule s =
          .ok (accrualsFromDates s.fixed_leg_day_count_convention
            (((Scheduler.generate_dates_by_increments s.end_accrual_date
                s.start_accrual_date m).reverse).map s.date_adjustment_function))) := by
  refine ⟨?_, ?_, rfl, rfl, rfl, ?_, ?_⟩
  · intro hA hS hQ
    cases hf : s.floating_leg_payment_frequency with
    | ANNUAL => exact absurd hf hA
    | SEMI_ANNUAL => exact absurd hf hS
    | QUARTERLY => exact absurd hf hQ
    | OTHER =>
      simp only [generate_floating_leg_accrual_schedule, hf]
      rfl
  · intro hA hS hQ
    cases hf : s.fixed_leg_payment_frequency with
    | ANNUAL => exact absurd hf hA
    | SEMI_ANNUAL => exact absurd hf hS
    | QUARTERLY => exact absurd hf hQ
    | OTHER =>
      simp only [generate_fixed_leg_accrual_schedule, hf]
      rfl
  · exact fun m hm => generate_floating_eq_of_freq s m hm
  · exact fun m hm => generate_fixed_eq_of_freq s m hm

/-- Witness for C7 at a concrete instrument with an unrecognized
frequency. -/
theorem frequency_dispatch_witness :
    generate_floating_leg_accrual_schedule badFreqSwap = .error .unsupportedFrequency :=
  (frequency_dispatch badFreqSwap).1 (by decide) (by decide) (by decide)

/-- C2: every payment of the floating-leg cashflow builder carries the
fixing date obtained by settlement-offsetting the accrual period start
under the fixing convention (so never derived from the accrual end), the
amount accrual_factor * notional * rate at that fixing date, and the
payment date obtained by settlement-offsetting the accrual period end
under the payment delay. -/
theorem floating_leg_payment_fields (s : TermInterestRateSwap) (r : Date → ℚ)
    (sched : List SwapAccrual) (cf : Cashflow)
    (hs : generate_floating_leg_accrual_schedule s = .ok sched)
    (hc : create_floating_leg_cashflow s r = .ok cf)
    (i : Nat) (a : SwapAccrual) (f : ℚ)
    (ha : sched[i]? = some a) (hf : a.accrual_factor = some f) :
    cf.payments[i]? = some
      { payment_date := Scheduler.calculate_settlement_date a.end_accrual
          s.payment_delay s.holiday_calendar
        payment := f * (s.notional : ℚ) *
          r (Scheduler.calculate_settlement_date a.start_accrual
              s.fixing_date_for_accrual_period s.holiday_calendar)
        fixing_date := some (Scheduler.calculate_settlement_date a.start_accrual
          s.fixing_date_for_accrual_period s.holiday_calendar) } := by
  unfold create_floating_leg_cashflow at hc
  rw [hs] at hc
  simp only [Except.map, Except.ok.injEq] at hc
  subst hc
  simp only [List.getElem?_map, ha, Option.map_some', hf, Option.getD_some]

/-- Witness for C2 at the first floating-leg payment of the example
instrument. -/
theorem floating_leg_payment_fields_witness :
    cfFloatExample.payments[0]? = some
      { payment_date := Scheduler.calculate_settlement_date accrualExample.end_accrual
          exampleSwap.payment_delay exampleSwap.holiday_calendar
        payment := factorExample * (exampleSwap.notional : ℚ) *
          exampleRate (Scheduler.calculate_settlement_date accrualExample.start_accrual
            exampleSwap.fixing_date_for_accrual_period exampleSwap.holiday_calendar)
        fixing_date := some (Scheduler.calculate_settlement_date accrualExample.start_accrual
          exampleSwap.fixing_date_for_accrual_period exampleSwap.holiday_calendar) } :=
  floating_leg_payment_fields exampleSwap exampleRate schedExample cfFloatExample rfl rfl 0
    accrualExample factorExample rfl rfl

/-- C3: every payment of the fixed-leg cashflow builder carries the
amount accrual_factor * notional * fixed_rate, the payment date obtained
by settlement-offsetting the accrual period end under the payment delay,
and no fixing date. -/
theorem fixed_leg_payment_fields (s : TermInterestRateSwap)
    (sched : List SwapAccrual) (cf : Cashflow)
    (hs : generate_fixed_leg_accrual_schedule s = .ok sched)
    (hc : create_fixed_leg_cashflow s = .ok cf)
    (i : Nat) (a : SwapAccrual) (f : ℚ)
    (ha : sched[i]? = some a) (hf : a.accrual_factor = some f) :
    cf.payments[i]? = some
      { payment_date := Scheduler.calculate_settlement_date a.end_accrual
          s.payment_delay s.holiday_calendar
        payment := f * (s.notional : ℚ) * s.fixed_rate
        fixing_date := none } := by
  unfold create_fixed_leg_cashflow at hc
  rw [hs] at hc
  simp only [Except.map, Except.ok.injEq] at hc
  subst hc
  simp only [List.getElem?_map, ha, Option.map_some', hf, Option.getD_some]

/-- Witness for C3 at the first fixed-leg payment of the example
instrument. -/
theorem fixed_leg_payment_fields_witness :
    cfFixedExample.payments[0]? = some
      { payment_date := Scheduler.calculate_settlement_date accrualFixedExample.end_accrual
          exampleSwap.payment_delay exampleSwap.holiday_calendar
        payment := factorFixedExample * (exampleSwap.notional : ℚ) * exampleSwap.fixed_rate
        fixing_date := none } :=
  fixed_leg_payment_fields exampleSwap schedFixedExample cfFixedExample rfl rfl 0
    accrualFixedExample factorFixedExample rfl rfl

/-- C8: the leg cashflow builders are pure functions of the instrument
fields they read and of the injected rate-fixing function: two
instruments agreeing on those fields (whatever their other fields)
produce equal payment sequences, so repeated calls with identical inputs
yield identical results and no field of the aggregate is changed. -/
theorem leg_builders_deterministic (s1 s2 : TermInterestRateSwap) (r : Date → ℚ)
    (hstart : s1.start_accrual_date = s2.start_accrual_date)
    (hend : s1.end_accrual_date = s2.end_accrual_date)
    (hadj : s1.date_adjustment_function = s2.date_adjustment_function)
    (hnot : s1.notional = s2.notional)
    (hcal : s1.holiday_calendar = s2.holiday_calendar)
    (hfix : s1.fixing_date_for_accrual_period = s2.fixing_date_for_accrual_period)
    (hdelay : s1.payment_delay = s2.payment_delay)
    (hffreq : s1.floating_leg_payment_frequency = s2.floating_leg_payment_frequency)
    (hfdcc : s1.floating_leg_day_count_convention = s2.floating_leg_day_count_convention)
    (hxfreq : s1.fixed_leg_payment_frequency = s2.fixed_leg_payment_frequency)
    (hxdcc : s1.fixed_leg_day_count_convention = s2.fixed_leg_day_count_convention)
    (hrate : s1.fixed_rate = s2.fixed_rate) :
    create_floating_leg_cashflow s1 r = create_floating_leg_cashflow s2 r
    ∧ create_fixed_leg_cashflow s1 = create_fixed_leg_cashflow s2 := by
  constructor
  · simp only [create_floating_leg_cashflow, generate_floating_leg_accrual_schedule,
      hstart, hend, hadj, hnot, hcal, hfix, hdelay, hffreq, hfdcc]
  · simp only [create_fixed_leg_cashflow, generate_fixed_leg_accrual_schedule,
      hstart, hend, hadj, hnot, hcal, hdelay, hxfreq, hxdcc, hrate]

/-- Witness for C8: the example instrument against a variant differing
only in fields the builders never read. -/
theorem leg_builders_deterministic_witness :
    create_floating_leg_cashflow exampleSwap exampleRate =
      create_floating_leg_cashflow exampleSwapVariant exampleRate
    ∧ create_fixed_leg_cashflow exampleSwap = create_fixed_leg_cashflow exampleSwapVariant :=
  leg_builders_deterministic exampleSwap exampleSwapVariant exampleRate
    rfl rfl rfl rfl rfl rfl rfl rfl rfl rfl rfl rfl

/-- C10: when the floating-leg payment frequency and day-count convention
equal the fixed-leg ones, the two schedule generators return equal
results. -/
theorem matching_legs_equal_schedules (s : TermInterestRateSwap)
    (hfreq : s.floating_leg_payment_frequency = s.fixed_leg_payment_frequency)
    (hdcc : s.floating_leg_day_count_convention = s.fixed_leg_day_count_convention) :
    generate_floating_leg_accrual_schedule s = generate_fixed_leg_accrual_schedule s := by
  simp only [generate_floating_leg_accrual_schedule, generate_fixed_leg_accrual_schedule,
    hfreq, hdcc]

/-- Witness for C10 at the example instrument, whose two legs share
frequency and day-count convention. -/
theorem matching_legs_equal_schedules_witness :
    generate_floating_leg_accrual_schedule exampleSwap =
      generate_fixed_leg_accrual_schedule exampleSwap :=
  matching_legs_equal_schedules exampleSwap rfl rfl

/-- Boundary-chaining, first-boundary and last-boundary properties of the
accrual-period construction over an adjusted, reversed boundary list
whose raw form ends with the window start and, when long enough, begins
with the window end. -/
lemma accruals_pipeline_props (dcc : DayCountConvention) (f : Date → Date)
    (sd ed : Date) (raw : List Date)
    (hcons : ∃ mid, raw.reverse = ed :: mid)
    (hhead : 2 ≤ raw.length → raw[0]? = some sd) :
    (∀ i a b, (accrualsFromDates dcc ((raw.reverse).map f))[i]? = some a →
      (accrualsFromDates dcc ((raw.reverse).map f))[i + 1]? = some b →
      a.end_accrual = b.start_accrual)
    ∧ (∀ a, (accrualsFromDates dcc ((raw.reverse).map f))[0]? = some a →
        a.start_accrual = f ed)
    ∧ (∀ a, (accrualsFromDates dcc ((raw.reverse).map f))[
          (accrualsFromDates dcc ((raw.reverse).map f)).length - 1]? = some a →
        a.end_accrual = f sd) := by
  refine ⟨?_, ?_, ?_⟩
  · intro i a b ha hb
    rw [accrualsFromDates_getElem] at ha hb
    cases h0 : ((raw.reverse).map f)[i]? with
    | none => rw [h0] at ha; exact absurd ha (by simp)
    | some x =>
      cases h1 : ((raw.reverse).map f)[i + 1]? with
      | none => rw [h0, h1] at ha; exact absurd ha (by simp)
      | some y =>
        rw [h0, h1] at ha
        cases h2 : ((raw.reverse).map f)[i + 1 + 1]? with
        | none => rw [h1, h2] at hb; exact absurd hb (by simp)
        | some z =>
          rw [h1, h2] at hb
          simp only [Option.some.injEq] at ha hb
          rw [← ha, ← hb]
  · intro a ha
    rw [accrualsFromDates_getElem] at ha
    obtain ⟨mid, hmid⟩ := hcons
    have h0 : ((raw.reverse).map f)[0]? = some (f ed) := by rw [hmid]; simp
    rw [h0] at ha
    cases h1 : ((raw.reverse).map f)[0 + 1]? with
    | none => rw [h1] at ha; exact absurd ha (by simp)
    | some y =>
      rw [h1] at ha
      simp only [Option.some.injEq] at ha
      rw [← ha]
  · intro a ha
    have hvalid := (List.getElem?_eq_some.mp ha).1
    have hlen := accrualsFromDates_length dcc ((raw.reverse).map f)
    have hlenl : ((raw.reverse).map f).length = raw.length := by simp
    have hposraw : 2 ≤ raw.length := by omega
    have hlt : raw.length - 1 < raw.length := by omega
    have hlast : ((raw.reverse).map f)[((raw.reverse).map f).length - 1]? = some (f sd) := by
      rw [hlenl, List.getElem?_map f raw.reverse (raw.length - 1),
        List.getElem?_reverse hlt, Nat.sub_self, hhead hposraw]
      rfl
    rw [accrualsFromDates_getElem] at ha
    have hidx : (accrualsFromDates dcc ((raw.reverse).map f)).length - 1 + 1 =
        ((raw.reverse).map f).length - 1 := by omega
    rw [hidx, hlast] at ha
    cases h0 : ((raw.reverse).map f)[
        (accrualsFromDates dcc ((raw.reverse).map f)).length - 1]? with
    | none => rw [h0] at ha; exact absurd ha (by simp)
    | some x =>
      rw [h0] at ha
      simp only [Option.some.injEq] at ha
      rw [← ha]

/-- C4: in every accrual schedule either generator returns, consecutive
periods share their boundary (no gaps, no overlaps), the first period
starts at the adjusted window start, and the last period ends at the
adjusted window end. -/
theorem accrual_schedule_no_gaps (s : TermInterestRateSwap) (sched : List SwapAccrual)
    (h : generate_floating_leg_accrual_schedule s = .ok sched
      ∨ generate_fixed_leg_accrual_schedule s = .ok sched) :
    (∀ i a b, sched[i]? = some a → sched[i + 1]? = some b →
      a.end_accrual = b.start_accrual)
    ∧ (∀ a, sched[0]? = some a →
        a.start_accrual = s.date_adjustment_function s.start_accrual_date)
    ∧ (∀ a, sched[sched.length - 1]? = some a →
        a.end_accrual = s.date_adjustment_function s.end_accrual_date) := by
  rcases h with h | h
  · obtain ⟨m, _, hs⟩ := generate_floating_ok_shape s sched h
    subst hs
    exact accruals_pipeline_props s.floating_leg_day_count_convention
      s.date_adjustment_function s.end_accrual_date s.start_accrual_date
      (Scheduler.generate_dates_by_increments s.end_accrual_date s.start_accrual_date m)
      (gdbi_reverse_cons s.end_accrual_date s.start_accrual_date m)
      (gdbi_getElem_zero s.end_accrual_date s.start_accrual_date m)
  · obtain ⟨m, _, hs⟩ := generate_fixed_ok_shape s sched h
    subst hs
    exact accruals_pipeline_props s.fixed_leg_day_count_convention
      s.date_adjustment_function s.end_accrual_date s.start_accrual_date
      (Scheduler.generate_dates_by_increments s.end_accrual_date s.start_accrual_date m)
      (gdbi_reverse_cons s.end_accrual_date s.start_accrual_date m)
      (gdbi_getElem_zero s.end_accrual_date s.start_accrual_date m)

/-- Witness for C4 at the example instrument: its first floating accrual
period starts at the adjusted window start. -/
theorem accrual_schedule_no_gaps_witness :
    accrualExample.start_accrual =
      exampleSwap.date_adjustment_function exampleSwap.start_accrual_date :=
  (accrual_schedule_no_gaps exampleSwap schedExample (Or.inl rfl)).2.1 accrualExample rfl

/-- Payment count of a successful fixed-leg cashflow: one payment per
boundary pair of the generated boundary list. -/
lemma fixed_cashflow_length (t : TermInterestRateSwap) (m : Int) (cf : Cashflow)
    (hm : frequency_months t.fixed_leg_payment_frequency = some m)
    (hc : create_fixed_leg_cashflow t = .ok cf) :
    cf.payments.length + 1 =
      (Scheduler.generate_dates_by_increments t.end_accrual_date
        t.start_accrual_date m).length := by
  have hgen := generate_fixed_eq_of_freq t m hm
  unfold create_fixed_leg_cashflow at hc
  rw [hgen] at hc
  simp only [Except.map, Except.ok.injEq] at hc
  subst hc
  have hpos := gdbi_length_pos t.end_accrual_date t.start_accrual_date m
  simp only [List.length_map, accrualsFromDates_length, List.length_reverse]
  omega

/-- Payment count of a successful floating-leg cashflow: one payment per
boundary pair of the generated boundary list. -/
lemma floating_cashflow_length (t : TermInterestRateSwap) (rt : Date → ℚ)
    (m : Int) (cf : Cashflow)
    (hm : frequency_months t.floating_leg_payment_frequency = some m)
    (hc : create_floating_leg_cashflow t rt = .ok cf) :
    cf.payments.length + 1 =
      (Scheduler.generate_dates_by_increments t.end_accrual_date
        t.start_accrual_date m).length := by
  have hgen := generate_floating_eq_of_freq t m hm
  unfold create_floating_leg_cashflow at hc
  rw [hgen] at hc
  simp only [Except.map, Except.ok.injEq] at hc
  subst hc
  have hpos := gdbi_length_pos t.end_accrual_date t.start_accrual_date m
  simp only [List.length_map, accrualsFromDates_length, List.length_reverse]
  omega

/-- C5: for any instrument over the window 2024-01-01 to 2034-01-01 with
a QUARTERLY fixed leg and a SEMI_ANNUAL floating leg, the fixed leg
cashflow holds exactly 40 payments and the floating leg exactly 20; in
general each successful leg cashflow holds one payment fewer than the
generated boundary list has dates. -/
theorem example_swap_payment_counts (s : TermInterestRateSwap) (r : Date → ℚ)
    (h1 : s.start_accrual_date = ⟨2024, 1, 1⟩)
    (h2 : s.end_accrual_date = ⟨2034, 1, 1⟩)
    (h3 : s.fixed_leg_payment_frequency = .QUARTERLY)
    (h4 : s.floating_leg_payment_frequency = .SEMI_ANNUAL) :
    (create_fixed_leg_cashflow s).map (fun cf => cf.payments.length) = .ok 40
    ∧ (create_floating_leg_cashflow s r).map (fun cf => cf.payments.length) = .ok 20
    ∧ (∀ (t : TermInterestRateSwap) (m : Int) (cf : Cashflow),
        frequency_months t.fixed_leg_payment_frequency = some m →
        create_fixed_leg_cashflow t = .ok cf →
        cf.payments.length + 1 =
          (Scheduler.generate_dates_by_increments t.end_accrual_date
            t.start_accrual_date m).length)
    ∧ (∀ (t : TermInterestRateSwap) (rt : Date → ℚ) (m : Int) (cf : Cashflow),
        frequency_months t.floating_leg_payment_frequency = some m →
        create_floating_leg_cashflow t rt = .ok cf →
        cf.payments.length + 1 =
          (Scheduler.generate_dates_by_increments t.end_accrual_date
            t.start_accrual_date m).length) := by
  refine ⟨?_, ?_, ?_, ?_⟩
  · have hm : frequency_months s.fixed_leg_payment_frequency = some (-3) := by rw [h3]; rfl
    have hgen := generate_fixed_eq_of_freq s (-3) hm
    simp only [create_fixed_leg_cashflow, hgen, Except.map, Except.ok.injEq,
      List.length_map, accrualsFromDates_length, List.length_reverse, h1, h2]
    rfl
  · have hm : frequency_months s.floating_leg_payment_frequency = some (-6) := by rw [h4]; rfl
    have hgen := generate_floating_eq_of_freq s (-6) hm
    simp only [create_floating_leg_cashflow, hgen, Except.map, Except.ok.injEq,
      List.length_map, accrualsFromDates_length, List.length_reverse, h1, h2]
    rfl
  · exact fun t m cf hm hc => fixed_cashflow_length t m cf hm hc
  · exact fun t rt m cf hm hc => floating_cashflow_length t rt m cf hm hc

/-- Witness for C5 at the ten-year example instrument. -/
theorem example_swap_payment_counts_witness :
    (create_fixed_leg_cashflow tenYearExampleSwap).map
      (fun cf => cf.payments.length) = .ok 40
    ∧ (create_floating_leg_cashflow tenYearExampleSwap exampleRate).map
        (fun cf => cf.payments.length) = .ok 20 :=
  ⟨(example_swap_payment_counts tenYearExampleSwap exampleRate rfl rfl rfl rfl).1,
   (example_swap_payment_counts tenYearExampleSwap exampleRate rfl rfl rfl rfl).2.1⟩

/-- If the rate-fixing function succeeds on the fixing dates of the first
i periods and fails on the fixing date of period i, the floating payment
loop returns exactly that failure. -/
lemma build_floating_fallible_error {E : Type} (s : TermInterestRateSwap)
    (r : Date → Except E ℚ) (e : E) :
    ∀ (l : List SwapAccrual) (i : Nat) (a : SwapAccrual),
    l[i]? = some a →
    (∀ j b, j < i → l[j]? = some b →
      ∃ q, r (Scheduler.calculate_settlement_date b.start_accrual
        s.fixing_date_for_accrual_period s.holiday_calendar) = .ok q) →
    r (Scheduler.calculate_settlement_date a.start_accrual
        s.fixing_date_for_accrual_period s.holiday_calendar) = .error e →
    build_floating_payments_fallible s r l = .error (Sum.inr e) := by
  intro l
  induction l with
  | nil => intro i a ha; simp at ha
  | cons x xs ih =>
    intro i a ha hpre he
    cases i with
    | zero =>
      rw [List.getElem?_cons_zero, Option.some.injEq] at ha
      subst ha
      simp only [build_floating_payments_fallible]
      rw [he]
    | succ n =>
      rw [List.getElem?_cons_succ] at ha
      obtain ⟨q, hq⟩ := hpre 0 x (Nat.succ_pos n) List.getElem?_cons_zero
      have hrec := ih n a ha
        (fun j b hj hb => hpre (j + 1) b (Nat.succ_lt_succ hj)
          (by rw [List.getElem?_cons_succ]; exact hb)) he
      simp only [build_floating_payments_fallible]
      rw [hq, hrec]
      rfl

/-- C9: a failure of the injected rate-fixing function at a fixing date
the floating-leg cashflow builder requests (all earlier requested fixings
having succeeded) propagates out of the builder with its payload
untouched: the builder catches nothing and performs no recovery. -/
theorem rate_fixing_failure_propagates {E : Type} (s : TermInterestRateSwap)
    (r : Date → Except E ℚ) (sched : List SwapAccrual) (i : Nat)
    (a : SwapAccrual) (e : E)
    (hs : generate_floating_leg_accrual_schedule s = .ok sched)
    (ha : sched[i]? = some a)
    (hpre : ∀ j b, j < i → sched[j]? = some b →
      ∃ q, r (Scheduler.calculate_settlement_date b.start_accrual
        s.fixing_date_for_accrual_period s.holiday_calendar) = .ok q)
    (he : r (Scheduler.calculate_settlement_date a.start_accrual
        s.fixing_date_for_accrual_period s.holiday_calendar) = .error e) :
    create_floating_leg_cashflow_fallible s r = .error (Sum.inr e) := by
  have hb := build_floating_fallible_error s r e sched i a ha hpre he
  simp only [create_floating_leg_cashflow_fallible, hs, hb, Except.map]

/-- Witness for C9 at the example instrument with a rate-fixing function
failing on every date. -/
theorem rate_fixing_failure_propagates_witness :
    create_floating_leg_cashflow_fallible exampleSwap exampleFailingRate =
      .error (Sum.inr 7) :=
  rate_fixing_failure_propagates exampleSwap exampleFailingRate schedExample 0
    accrualExample 7 rfl rfl
    (fun j _ hj _ => absurd hj (Nat.not_lt_zero j)) rfl
